import Mathlib

/-!
# Guestbook core: shallow embedding and verification

This file embeds the feed-composition and posting-gate core of the
guestbook application (server actions `getGuestbookEntries` and
`createGuestbookEntry`, the client-side ignore-list toggle
`handleUsernameAction`, and the collaborating stores) and proves the
spec-level properties about them.

Modelling conventions:
* JavaScript nullable strings become `Option String`; JS truthiness on
  such a value (`null`/`undefined` and the empty string are falsy) is
  `optStrTruthy`, and the falsy-chaining operator `a || b` is `strOr`.
* `String.prototype.toLowerCase` / `trim` are modelled over the
  character list (`strToLower`, `strTrim`).
* The database is explicit state: `DB` holds the `guestbook` and `user`
  tables as lists; the drizzle query pipeline (`orderBy desc`,
  `offset`, `limit`, `leftJoin`) becomes sorting, `drop`/`take` and an
  explicit user lookup.
* Fallible server actions return `Except String`, the thrown `Error`
  message being the error value.
* `Math.ceil(total / limit)` on JS numbers is translated to natural
  ceiling division `(total + limit - 1) / limit`, exact for `limit > 0`
  (all claims assume a positive page size).
-/

namespace Guestbook

/-- JS truthiness of a nullable string: `null`/`undefined` and `""` are falsy. -/
def optStrTruthy : Option String → Bool
  | none => false
  | some s => decide (s ≠ "")

/-- JS falsy-chaining `a || b` on nullable strings. -/
def strOr : Option String → Option String → Option String
  | none, b => b
  | some s, b => if s = "" then b else some s

/-- Models `String.prototype.toLowerCase`, over the character list. -/
def strToLower (s : String) : String := ⟨s.data.map Char.toLower⟩

/-- Models `String.prototype.trim`, over the character list. -/
def strTrim (s : String) : String :=
  ⟨((s.data.dropWhile Char.isWhitespace).reverse.dropWhile Char.isWhitespace).reverse⟩

/-- Naive substring test on character lists. -/
def listContainsSub (pat : List Char) : List Char → Bool
  | [] => pat.isEmpty
  | c :: cs => pat.isPrefixOf (c :: cs) || listContainsSub pat cs

/-- `strContainsSub s pat` holds when `pat` occurs inside `s`. -/
def strContainsSub (s pat : String) : Bool := listContainsSub pat.data s.data

/-! ## Data model -/

/-- A row of the `user` table, as selected by the server actions.
`username` and `displayUsername` are nullable; `name` is the mandatory
real name (the spec's author label fallback of last resort). -/
structure User where
  id : String
  username : Option String
  displayUsername : Option String
  name : String
deriving DecidableEq, Repr

/-- A row of the `guestbook` table: message text, author id, creation
timestamp and optional parent-message id. -/
structure GuestbookRow where
  id : String
  message : String
  createdAt : Nat
  userId : String
  replyToId : Option String
deriving DecidableEq, Repr

/-- The database state visible to the server actions. -/
structure DB where
  guestbook : List GuestbookRow
  users : List User
deriving DecidableEq, Repr

/-- The `leftJoin` user lookup: first `user` row with the given id. -/
def findUser (db : DB) (uid : String) : Option User :=
  db.users.find? (fun u => u.id == uid)

/-- The session as the posting gate sees it: an authenticated user id
plus the email-verification flag (`session.user.emailVerified`). -/
structure Session where
  userId : String
  emailVerified : Bool
deriving DecidableEq, Repr

/-! ## Content Validator -/

/-- The validation constraints passed to the Content Validator. -/
structure ValidationConstraints where
  allowLinks : Bool
  allowProfanity : Bool
  maxLength : Nat
  minLength : Nat
deriving DecidableEq, Repr

/-- The Content Validator's result: validity flag, ordered list of
violated-rule reasons, and the sanitized text on acceptance. -/
structure ValidationResult where
  isValid : Bool
  errors : List String
  sanitizedContent : Option String
deriving DecidableEq, Repr

/-- Modelled from the spec: the repository's `@/lib/content-validation`
module is not under src/. The spec fixes the link rule only as a content
check toggled by `allowLinks`; a URL-scheme substring test stands in for
the unspecified detector. -/
def containsLink (t : String) : Bool :=
  strContainsSub t ("http://") || strContainsSub t ("https://")

/-- Modelled from the spec: representative word list for the profanity
check toggled by `allowProfanity` (the spec does not fix the list). -/
def profanityWords : List String := ["badword"]

/-- Modelled from the spec: profanity detector, substring match against
`profanityWords`. -/
def containsProfanity (t : String) : Bool :=
  profanityWords.any (fun w => strContainsSub t w)

/-- Modelled from the spec: `validateMessageContent` from the missing
`@/lib/content-validation` module. Per spec §4.1 it trims the text,
checks it against `{maxLength, minLength, allowLinks, allowProfanity}`,
reports all simultaneous violations as an ordered list of distinct
reasons, and an empty or whitespace-only text always fails the
minimum-length rule regardless of the configured minimum. -/
def validateMessageContent (content : String) (c : ValidationConstraints) :
    ValidationResult :=
  let t := strTrim content
  let errors :=
    (if t.data.length = 0 ∨ t.data.length < c.minLength then ["Message is too short"] else [])
    ++ (if t.data.length > c.maxLength then ["Message is too long"] else [])
    ++ (if !c.allowLinks && containsLink t then ["Links are not allowed"] else [])
    ++ (if !c.allowProfanity && containsProfanity t then ["Message contains inappropriate content"] else [])
  { isValid := errors.isEmpty
    errors := errors
    sanitizedContent := if errors.isEmpty then some t else none }

/-! ## Message Store insert -/

/-- Modelled from the spec: the repository's `@/db/schema` is not under
src/. Per the spec's referential invariant (§3, "if `replyToId` is set,
it must reference an existing Message id"), the store rejects an insert
whose `replyToId` does not reference an existing message id; any other
insert appends the row. -/
def insertGuestbook (db : DB) (row : GuestbookRow) : Except String DB :=
  match row.replyToId with
  | none => .ok { db with guestbook := db.guestbook ++ [row] }
  | some rid =>
      if db.guestbook.any (fun p => p.id == rid) then
        .ok { db with guestbook := db.guestbook ++ [row] }
      else
        .error ("foreign key violation: replyToId does not reference an existing message")

/-- The maximum-length constraint chosen by `createGuestbookEntry`:
`replyToId ? 1000 : 200` under JS truthiness. -/
def messageMaxLength (replyToId : Option String) : Nat :=
  if optStrTruthy replyToId then 1000 else 200

/-- The constraints `createGuestbookEntry` passes to the validator:
`{allowLinks: false, allowProfanity: false, maxLength, minLength: 1}`. -/
def postConstraints (replyToId : Option String) : ValidationConstraints :=
  { allowLinks := false
    allowProfanity := false
    maxLength := messageMaxLength replyToId
    minLength := 1 }

/-- The server action `createGuestbookEntry(message, replyToId?)`.
`newId` and `now` stand for the id and timestamp the store generates
for the inserted row; the returned payload of the action itself is
`Unit` (the action returns no value). -/
def createGuestbookEntry (session : Option Session) (message : String)
    (replyToId : Option String) (newId : String) (now : Nat) (db : DB) :
    Except String (Unit × DB) :=
  match session with
  | none => .error ("You must be signed in to post a message")
  | some s =>
    let validation := validateMessageContent message (postConstraints replyToId)
    if validation.isValid then
      match insertGuestbook db
        { id := newId
          message := validation.sanitizedContent.getD ""
          createdAt := now
          userId := s.userId
          replyToId := if optStrTruthy replyToId then replyToId else none } with
      | .ok db2 => .ok ((), db2)
      | .error e => .error e
    else
      .error (String.intercalate (", ") validation.errors)

/-! ## Feed composition -/

/-- The joined row produced by the `select` of `getGuestbookEntries`. -/
structure EntryRow where
  id : String
  message : String
  createdAt : Nat
  username : Option String
  displayUsername : Option String
  name : Option String
  userId : String
  replyToId : Option String
deriving DecidableEq, Repr

/-- An entry after reply enrichment (`entriesWithReplyInfo`). -/
structure EntryWithReply extends EntryRow where
  replyToMessage : Option String
  replyToUsername : Option String
deriving DecidableEq, Repr

/-- An entry after the creator flag is attached (`entriesWithCreator`). -/
structure FeedEntry extends EntryWithReply where
  isCreator : Bool
deriving DecidableEq, Repr

/-- The pagination metadata returned with a feed page. -/
structure Pagination where
  page : Nat
  limit : Nat
  total : Nat
  totalPages : Nat
  hasNext : Bool
  hasPrev : Bool
deriving DecidableEq, Repr

/-- The value returned by `getGuestbookEntries`. -/
structure FeedPage where
  entries : List FeedEntry
  pagination : Pagination
deriving DecidableEq, Repr

/-- Process-wide read-only configuration: the `CREATOR_USERNAME`
environment value exposed through `next.config.ts` (`none` when unset). -/
structure Config where
  CREATOR_USERNAME : Option String
deriving DecidableEq, Repr

/-- Insertion step for the `orderBy(desc(createdAt))` sort. -/
def insertByCreatedAtDesc (r : GuestbookRow) :
    List GuestbookRow → List GuestbookRow
  | [] => [r]
  | x :: xs =>
    if x.createdAt ≤ r.createdAt then r :: x :: xs
    else x :: insertByCreatedAtDesc r xs

/-- `orderBy(desc(createdAt))`: newest first. -/
def sortByCreatedAtDesc (l : List GuestbookRow) : List GuestbookRow :=
  l.foldr insertByCreatedAtDesc []

/-- The `leftJoin(user, ...)` projection of one guestbook row. -/
def selectEntry (db : DB) (r : GuestbookRow) : EntryRow :=
  match findUser db r.userId with
  | some u =>
    { id := r.id, message := r.message, createdAt := r.createdAt
      username := u.username, displayUsername := u.displayUsername
      name := some u.name, userId := r.userId, replyToId := r.replyToId }
  | none =>
    { id := r.id, message := r.message, createdAt := r.createdAt
      username := none, displayUsername := none, name := none
      userId := r.userId, replyToId := r.replyToId }

/-- The parent lookup `where(eq(guestbook.id, entry.replyToId)).limit(1)`. -/
def findParent (db : DB) (rid : String) : Option GuestbookRow :=
  db.guestbook.find? (fun r => r.id == rid)

/-- The parent author label
`displayUsername || username || name` of the joined parent row. -/
def parentAuthorLabel (db : DB) (p : GuestbookRow) : Option String :=
  let pu := findUser db p.userId
  strOr (pu.bind User.displayUsername)
    (strOr (pu.bind User.username) (pu.map User.name))

/-- Reply enrichment of one entry: when `entry.replyToId` is truthy the
parent is looked up; on a hit `replyToMessage`/`replyToUsername` are
populated, on a miss they are left absent and the entry is otherwise
unchanged. -/
def resolveReply (db : DB) (e : EntryRow) : EntryWithReply :=
  match e.replyToId with
  | some rid =>
    if rid = "" then
      { toEntryRow := e, replyToMessage := none, replyToUsername := none }
    else
      match findParent db rid with
      | some p =>
        { toEntryRow := e
          replyToMessage := some p.message
          replyToUsername := parentAuthorLabel db p }
      | none =>
        { toEntryRow := e, replyToMessage := none, replyToUsername := none }
  | none => { toEntryRow := e, replyToMessage := none, replyToUsername := none }

/-- The entry author label `displayUsername || username || name`. -/
def entryAuthorLabel (e : EntryRow) : Option String :=
  strOr e.displayUsername (strOr e.username e.name)

/-- Attaching the creator flag:
`!!creatorUsername && entryUsername === creatorUsername` with both sides
lower-cased (`creatorLower` is already lower-cased by the caller). -/
def addCreator (creatorLower : Option String) (e : EntryWithReply) : FeedEntry :=
  let entryUsername := (entryAuthorLabel e.toEntryRow).map strToLower
  { toEntryWithReply := e
    isCreator := optStrTruthy creatorLower && (entryUsername == creatorLower) }

/-- The page of raw guestbook rows:
sort newest-first, skip `(page-1)*limit`, take `limit`. -/
def feedRows (db : DB) (page limit : Nat) : List GuestbookRow :=
  ((sortByCreatedAtDesc db.guestbook).drop ((page - 1) * limit)).take limit

/-- The page of enriched entries, before the creator flag. -/
def feedEnriched (db : DB) (page limit : Nat) : List EntryWithReply :=
  ((feedRows db page limit).map (selectEntry db)).map (resolveReply db)

/-- The server action `getGuestbookEntries(page, limit)`. -/
def getGuestbookEntries (cfg : Config) (db : DB) (page limit : Nat) : FeedPage :=
  let creatorUsername := cfg.CREATOR_USERNAME.map strToLower
  let entriesWithCreator := (feedEnriched db page limit).map (addCreator creatorUsername)
  let total := db.guestbook.length
  { entries := entriesWithCreator
    pagination :=
      { page := page
        limit := limit
        total := total
        totalPages := (total + limit - 1) / limit
        hasNext := decide (page < (total + limit - 1) / limit)
        hasPrev := decide (page > 1) } }

/-! ## Ignore list -/

/-- The toggle computed by `handleUsernameAction` before the store call:
remove the label when present, append it when absent. -/
def toggleIgnored (currentIgnored : List String) (username : String) :
    List String :=
  if currentIgnored.contains username then
    currentIgnored.filter (fun u => u != username)
  else
    currentIgnored ++ [username]

/-- A viewer's preference row. -/
structure PrefRow where
  userId : String
  ignoredUsers : List String
deriving DecidableEq, Repr

/-- The preference store state. -/
structure PrefDB where
  prefs : List PrefRow
deriving DecidableEq, Repr

/-- Modelled from the spec: `updateIgnoredUsers` from the missing
`@/actions/preferences` module. Per spec §4.5 it replaces the viewer's
entire ignored set atomically (creating the row lazily on first write). -/
def updateIgnoredUsers (p : PrefDB) (viewerId : String)
    (newList : List String) : PrefDB :=
  if p.prefs.any (fun r => r.userId == viewerId) then
    { prefs := p.prefs.map (fun r =>
        if r.userId == viewerId then
          { userId := viewerId, ignoredUsers := newList }
        else r) }
  else
    { prefs := p.prefs ++ [{ userId := viewerId, ignoredUsers := newList }] }

/-- Modelled from the spec: `getUserPreferences` from the missing
`@/actions/preferences` module; the stored ignore list, empty when the
viewer has no row yet. -/
def getUserPreferences (p : PrefDB) (viewerId : String) : List String :=
  match p.prefs.find? (fun r => r.userId == viewerId) with
  | some r => r.ignoredUsers
  | none => []

/-- The whole `ignore` branch of `handleUsernameAction`: read the current
list, toggle the label, store the full new list. -/
def handleIgnoreAction (p : PrefDB) (viewerId : String) (username : String) :
    PrefDB :=
  updateIgnoredUsers p viewerId (toggleIgnored (getUserPreferences p viewerId) username)

/-- Executable form of the referential invariant: every set `replyToId`
references the id of an existing message of the store. -/
def refInvB (db : DB) : Bool :=
  db.guestbook.all (fun row =>
    match row.replyToId with
    | none => true
    | some rid => db.guestbook.any (fun p => p.id == rid))

/-! ## Concrete evaluation data -/

/-- Store with one root message, used to evaluate invariant preservation. -/
def dbC4 : DB :=
  { guestbook := [{ id := "p1", message := "root", createdAt := 1,
                    userId := "u1", replyToId := none }]
    users := [] }

/-- `dbC4` after a reply to `p1` is posted. -/
def dbC4after : DB :=
  { guestbook := [{ id := "p1", message := "root", createdAt := 1,
                    userId := "u1", replyToId := none },
                  { id := "r1", message := "reply", createdAt := 2,
                    userId := "u1", replyToId := some "p1" }]
    users := [] }

/-- Store with two root messages, used to evaluate pagination. -/
def dbC5 : DB :=
  { guestbook := [{ id := "a1", message := "one", createdAt := 1,
                    userId := "u1", replyToId := none },
                  { id := "a2", message := "two", createdAt := 2,
                    userId := "u1", replyToId := none }]
    users := [] }

/-- Store with a root message, a reply to it, and the author's user row. -/
def dbC6 : DB :=
  { guestbook := [{ id := "p1", message := "hello", createdAt := 1,
                    userId := "u1", replyToId := none },
                  { id := "r1", message := "re: hello", createdAt := 2,
                    userId := "u1", replyToId := some "p1" }]
    users := [{ id := "u1", username := some "alice", displayUsername := none,
                name := "Alice A" }] }

/-- The composed entry for the reply `r1` of `dbC6`. -/
def eC6 : FeedEntry :=
  { id := "r1", message := "re: hello", createdAt := 2
    username := some "alice", displayUsername := none, name := some "Alice A"
    userId := "u1", replyToId := some "p1"
    replyToMessage := some "hello", replyToUsername := some "alice"
    isCreator := false }

/-- Store with one message by a user whose handle is the creator label
in a different case. -/
def dbC8 : DB :=
  { guestbook := [{ id := "m1", message := "yo", createdAt := 1,
                    userId := "u1", replyToId := none }]
    users := [{ id := "u1", username := some "Alice", displayUsername := none,
                name := "AL" }] }

/-- The composed entry for the message `m1` of `dbC8` under the
configured creator label `ALICE`. -/
def eC8 : FeedEntry :=
  { id := "m1", message := "yo", createdAt := 1
    username := some "Alice", displayUsername := none, name := some "AL"
    userId := "u1", replyToId := none
    replyToMessage := none, replyToUsername := none
    isCreator := true }

/-- The composed entry for the message `m1` of `dbC8` when no creator
label is configured. -/
def eC10 : FeedEntry :=
  { id := "m1", message := "yo", createdAt := 1
    username := some "Alice", displayUsername := none, name := some "AL"
    userId := "u1", replyToId := none
    replyToMessage := none, replyToUsername := none
    isCreator := false }

/-- An empty preference store. -/
def pC9 : PrefDB := { prefs := [] }

/-- Empty store used to evaluate a successful post. -/
def dbC3a : DB := { guestbook := [], users := [] }

/-- `dbC3a` after the message `hey` is posted. -/
def dbC3b : DB :=
  { guestbook := [{ id := "m5", message := "hey", createdAt := 9,
                    userId := "u3", replyToId := none }]
    users := [] }

/-- A 250-character text (no links, no profanity, nothing to trim). -/
def tC7 : String := String.mk (List.replicate 250 'a')

/-- Store with one root message `p1`, target of a reply. -/
def dbC7 : DB :=
  { guestbook := [{ id := "p1", message := "first", createdAt := 1,
                    userId := "u1", replyToId := none }]
    users := [] }

/-! ## Helper lemmas -/

lemma entries_eq (cfg : Config) (db : DB) (page limit : Nat) :
    (getGuestbookEntries cfg db page limit).entries
      = (feedEnriched db page limit).map (addCreator (cfg.CREATOR_USERNAME.map strToLower)) :=
  rfl

lemma addCreator_toEntryWithReply (c : Option String) (w : EntryWithReply) :
    (addCreator c w).toEntryWithReply = w :=
  rfl

lemma strToLower_eq_empty_iff (s : String) : strToLower s = "" ↔ s = "" := by
  constructor
  · intro h
    have hd : s.data.map Char.toLower = ([] : List Char) := congrArg String.data h
    exact String.ext (List.map_eq_nil_iff.1 hd)
  · intro h
    subst h
    rfl

lemma optStrTruthy_some_iff (s : String) : optStrTruthy (some s) = true ↔ s ≠ "" := by
  simp [optStrTruthy]

lemma addCreator_isCreator (c : Option String) (w : EntryWithReply) :
    (addCreator c w).isCreator
      = (optStrTruthy c && ((entryAuthorLabel w.toEntryRow).map strToLower == c)) :=
  rfl

lemma addCreator_toEntryRow (c : Option String) (w : EntryWithReply) :
    (addCreator c w).toEntryRow = w.toEntryRow :=
  rfl

lemma resolveReply_toEntryRow (db : DB) (e : EntryRow) :
    (resolveReply db e).toEntryRow = e := by
  unfold resolveReply
  split
  · split
    · rfl
    · split <;> rfl
  · rfl

lemma resolveReply_reply_fields (db : DB) (e : EntryRow) (rid : String)
    (hr : e.replyToId = some rid) (hne : rid ≠ "") :
    (∀ p, findParent db rid = some p →
      (resolveReply db e).replyToMessage = some p.message ∧
      (resolveReply db e).replyToUsername = parentAuthorLabel db p) ∧
    (findParent db rid = none →
      (resolveReply db e).replyToMessage = none ∧
      (resolveReply db e).replyToUsername = none) := by
  unfold resolveReply
  rw [hr]
  simp only [if_neg hne]
  constructor
  · intro p hp
    rw [hp]
    exact ⟨rfl, rfl⟩
  · intro hp
    rw [hp]
    exact ⟨rfl, rfl⟩

lemma insertGuestbook_ok (db : DB) (row : GuestbookRow) (db2 : DB)
    (h : insertGuestbook db row = .ok db2) :
    db2 = { db with guestbook := db.guestbook ++ [row] } := by
  unfold insertGuestbook at h
  split at h
  · injection h with h
    exact h.symm
  · split at h
    · injection h with h
      exact h.symm
    · cases h

lemma insertGuestbook_ok_of (db : DB) (row : GuestbookRow)
    (h : match row.replyToId with
      | none => True
      | some rid => db.guestbook.any (fun p => p.id == rid) = true) :
    insertGuestbook db row = .ok { db with guestbook := db.guestbook ++ [row] } := by
  unfold insertGuestbook
  cases hr : row.replyToId with
  | none => rfl
  | some rid =>
    rw [hr] at h
    simp only [h, if_true]

lemma createGuestbookEntry_invalid (s : Session) (message : String)
    (replyToId : Option String) (newId : String) (now : Nat) (db : DB)
    (h : (validateMessageContent message (postConstraints replyToId)).isValid = false) :
    createGuestbookEntry (some s) message replyToId newId now db
      = .error (String.intercalate (", ")
          (validateMessageContent message (postConstraints replyToId)).errors) := by
  simp only [createGuestbookEntry]
  rw [if_neg (by simp [h])]

lemma createGuestbookEntry_valid (s : Session) (message : String)
    (replyToId : Option String) (newId : String) (now : Nat) (db : DB)
    (hv : (validateMessageContent message (postConstraints replyToId)).isValid = true)
    (hfk : (match (if optStrTruthy replyToId then replyToId else none : Option String) with
      | none => True
      | some rid => db.guestbook.any (fun p => p.id == rid) = true)) :
    createGuestbookEntry (some s) message replyToId newId now db
      = .ok ((), { db with guestbook := db.guestbook ++
          [{ id := newId
             message := (validateMessageContent message (postConstraints replyToId)).sanitizedContent.getD ""
             createdAt := now
             userId := s.userId
             replyToId := if optStrTruthy replyToId then replyToId else none }] }) := by
  simp only [createGuestbookEntry]
  rw [if_pos hv]
  rw [insertGuestbook_ok_of db _ (by exact hfk)]

lemma createGuestbookEntry_ok_cases (s : Session) (message : String)
    (replyToId : Option String) (newId : String) (now : Nat) (db db2 : DB)
    (h : createGuestbookEntry (some s) message replyToId newId now db = .ok ((), db2)) :
    db2 = { db with guestbook := db.guestbook ++
        [{ id := newId
           message := (validateMessageContent message (postConstraints replyToId)).sanitizedContent.getD ""
           createdAt := now
           userId := s.userId
           replyToId := if optStrTruthy replyToId then replyToId else none }] } ∧
    (match (if optStrTruthy replyToId then replyToId else none : Option String) with
      | none => True
      | some rid => db.guestbook.any (fun p => p.id == rid) = true) := by
  simp only [createGuestbookEntry] at h
  split at h
  · split at h
    · rename_i dbi hins
      injection h with h2
      injection h2 with h3 h4
      subst h4
      refine ⟨insertGuestbook_ok db _ _ hins, ?_⟩
      unfold insertGuestbook at hins
      split at hins
      · rename_i hnone
        dsimp only at hnone
        rw [hnone]
        trivial
      · rename_i rid hsome
        dsimp only at hsome
        rw [hsome]
        split at hins
        · rename_i hany
          exact hany
        · cases hins
    · cases h
  · cases h

/-! ## C5: pagination contract of the feed composer -/

/-- C5: for every page ≥ 1 and pageSize > 0, `getGuestbookEntries`
returns at most `limit` entries, `total` is the number of messages in
the store, `totalPages` is the ceiling of `total / limit` (with its
defining least-upper-bound property), `hasNext = (page < totalPages)`,
and `hasPrev = (page > 1)`. -/
theorem getGuestbookEntries_pagination (cfg : Config) (db : DB) (page limit : Nat)
    (hpage : 1 ≤ page) (hlimit : 0 < limit) :
    (getGuestbookEntries cfg db page limit).entries.length ≤ limit ∧
    (getGuestbookEntries cfg db page limit).pagination.total = db.guestbook.length ∧
    (getGuestbookEntries cfg db page limit).pagination.totalPages
      = db.guestbook.length ⌈/⌉ limit ∧
    db.guestbook.length
      ≤ limit * (getGuestbookEntries cfg db page limit).pagination.totalPages ∧
    (∀ k : Nat, db.guestbook.length ≤ limit * k →
      (getGuestbookEntries cfg db page limit).pagination.totalPages ≤ k) ∧
    (getGuestbookEntries cfg db page limit).pagination.hasNext
      = decide (page < (getGuestbookEntries cfg db page limit).pagination.totalPages) ∧
    (getGuestbookEntries cfg db page limit).pagination.hasPrev = decide (page > 1) := by
  have htp : (getGuestbookEntries cfg db page limit).pagination.totalPages
      = db.guestbook.length ⌈/⌉ limit := rfl
  refine ⟨?_, rfl, htp, ?_, ?_, rfl, rfl⟩
  · simp only [entries_eq, feedEnriched, feedRows, List.length_map, List.length_take]
    omega
  · rw [htp]
    simpa [smul_eq_mul] using le_smul_ceilDiv (α := ℕ) (β := ℕ) hlimit
  · intro k hk
    rw [htp]
    exact (ceilDiv_le_iff_le_mul hlimit).2 hk

/-! ## C10: unset or empty creator configuration -/

/-- C10: when `CREATOR_USERNAME` is unset or empty, every composed feed
entry has `isCreator = false`. -/
theorem no_creator_no_flag (cfg : Config) (db : DB) (page limit : Nat)
    (hc : cfg.CREATOR_USERNAME = none ∨ cfg.CREATOR_USERNAME = some "")
    (e : FeedEntry) (he : e ∈ (getGuestbookEntries cfg db page limit).entries) :
    e.isCreator = false := by
  rw [entries_eq] at he
  obtain ⟨w, _, rfl⟩ := List.mem_map.1 he
  rcases hc with h | h <;>
    simp [addCreator, h, optStrTruthy, strToLower]

/-! ## C9: ignore-list toggle and whole-set replacement -/

lemma find?_update_mem (l : List PrefRow) (v : String) (N : List String)
    (h : l.any (fun r => r.userId == v) = true) :
    (l.map (fun r =>
        if r.userId == v then { userId := v, ignoredUsers := N } else r)).find?
      (fun r => r.userId == v)
      = some { userId := v, ignoredUsers := N } := by
  induction l with
  | nil => simp at h
  | cons r t ih =>
    cases hr : (r.userId == v) with
    | true => simp [List.find?, hr]
    | false =>
      simp only [List.any_cons, hr, Bool.false_or] at h
      simpa [List.find?, hr] using ih h

lemma find?_append_new (l : List PrefRow) (v : String) (N : List String)
    (h : l.any (fun r => r.userId == v) = false) :
    ((l ++ [({ userId := v, ignoredUsers := N } : PrefRow)]).find?
        (fun r => r.userId == v))
      = some { userId := v, ignoredUsers := N } := by
  induction l with
  | nil => simp [List.find?]
  | cons r t ih =>
    simp only [List.any_cons, Bool.or_eq_false_iff] at h
    simpa [List.find?, h.1] using ih h.2

lemma getUserPreferences_mk (l : List PrefRow) (v : String) :
    getUserPreferences { prefs := l } v
      = match l.find? (fun r => r.userId == v) with
        | some r => r.ignoredUsers
        | none => [] :=
  rfl

lemma getUserPreferences_update (p : PrefDB) (v : String) (N : List String) :
    getUserPreferences (updateIgnoredUsers p v N) v = N := by
  cases h : p.prefs.any (fun r => r.userId == v) with
  | true =>
    have h2 : updateIgnoredUsers p v N
        = { prefs := p.prefs.map (fun r =>
              if r.userId == v then { userId := v, ignoredUsers := N } else r) } := by
      simp [updateIgnoredUsers, h]
    rw [h2, getUserPreferences_mk, find?_update_mem p.prefs v N h]
  | false =>
    have h2 : updateIgnoredUsers p v N
        = { prefs := p.prefs ++ [{ userId := v, ignoredUsers := N }] } := by
      simp [updateIgnoredUsers, h]
    rw [h2, getUserPreferences_mk, find?_append_new p.prefs v N h]

/-- C9: the caller's toggle produces the whole new list (`u` removed when
present, `u` appended when absent) and the store call replaces the
viewer's entire stored set with exactly that list. -/
theorem ignore_toggle_spec (L : List String) (u : String) (p : PrefDB) (v : String)
    (N : List String) :
    (u ∈ L → toggleIgnored L u = L.filter (fun x => decide (x ≠ u))) ∧
    (u ∉ L → toggleIgnored L u = L ++ [u]) ∧
    getUserPreferences (updateIgnoredUsers p v N) v = N ∧
    getUserPreferences (handleIgnoreAction p v u) v
      = toggleIgnored (getUserPreferences p v) u := by
  refine ⟨?_, ?_, getUserPreferences_update p v N, ?_⟩
  · intro h
    have hc : L.contains u = true := List.elem_eq_true_of_mem h
    simp only [toggleIgnored, hc, if_true]
    apply List.filter_congr
    intro x _
    by_cases hx : x = u <;> simp [hx]
  · intro h
    have hc : L.contains u = false := by
      simpa using h
    have hne : ¬ (L.contains u = true) := by
      intro ht
      rw [ht] at hc
      simp at hc
    simp only [toggleIgnored]
    rw [if_neg hne]
  · exact getUserPreferences_update p v _

/-! ## C8: creator flag on composed feed entries -/

/-- C8: when a nonempty creator label is configured, a composed feed
entry's `isCreator` flag is true iff its resolved author label equals
the configured label case-insensitively; attaching the flag changes no
other field of the entries. -/
theorem creator_flag_iff (cfg : Config) (db : DB) (page limit : Nat) (c : String)
    (hc : cfg.CREATOR_USERNAME = some c) (hne : c ≠ "")
    (e : FeedEntry) (he : e ∈ (getGuestbookEntries cfg db page limit).entries) :
    (e.isCreator = true ↔
      (entryAuthorLabel e.toEntryRow).map strToLower = some (strToLower c)) ∧
    (getGuestbookEntries cfg db page limit).entries.map FeedEntry.toEntryWithReply
      = feedEnriched db page limit := by
  constructor
  · rw [entries_eq] at he
    obtain ⟨w, _, rfl⟩ := List.mem_map.1 he
    rw [hc]
    have ht : optStrTruthy (some (strToLower c)) = true :=
      (optStrTruthy_some_iff _).2 (fun hh => hne ((strToLower_eq_empty_iff c).1 hh))
    simp only [Option.map_some']
    rw [addCreator_isCreator, addCreator_toEntryRow, ht, Bool.true_and]
    simp [beq_iff_eq]
  · rw [entries_eq]
    have hcomp : FeedEntry.toEntryWithReply ∘ addCreator (cfg.CREATOR_USERNAME.map strToLower)
        = id := by
      funext w
      rfl
    rw [List.map_map, hcomp, List.map_id]

/-! ## C4: referential invariant preserved by posting -/

lemma refInv_append (db : DB) (row : GuestbookRow)
    (hinv : refInvB db = true)
    (hrow : (match row.replyToId with
      | none => true
      | some rid => db.guestbook.any (fun p => p.id == rid)) = true) :
    refInvB { db with guestbook := db.guestbook ++ [row] } = true := by
  rw [refInvB, List.all_eq_true]
  rw [refInvB, List.all_eq_true] at hinv
  intro r hr
  rcases List.mem_append.1 hr with hmem | hmem
  · have hold := hinv r hmem
    cases hrid : r.replyToId with
    | none => simp [hrid]
    | some rid =>
      rw [hrid] at hold
      simp only [hrid, List.any_append, Bool.or_eq_true]
      exact Or.inl hold
  · have hr2 : r = row := by simpa using hmem
    subst hr2
    cases hrid : r.replyToId with
    | none => simp [hrid]
    | some rid =>
      rw [hrid] at hrow
      simp only [hrid, List.any_append, Bool.or_eq_true]
      exact Or.inl hrow

/-- C4: a successful `createGuestbookEntry` preserves the referential
invariant that every set `replyToId` references an existing message
(the feed read does not modify the store, so posting is the only
store-mutating operation of the core). -/
theorem createGuestbookEntry_preserves_refInv (session : Option Session)
    (message : String) (replyToId : Option String) (newId : String) (now : Nat)
    (db db2 : DB) (hinv : refInvB db = true)
    (hok : createGuestbookEntry session message replyToId newId now db
      = .ok ((), db2)) :
    refInvB db2 = true := by
  cases session with
  | none => simp [createGuestbookEntry] at hok
  | some s =>
    obtain ⟨hdb2, hfk⟩ :=
      createGuestbookEntry_ok_cases s message replyToId newId now db db2 hok
    rw [hdb2]
    apply refInv_append db _ hinv
    cases hr : (if optStrTruthy replyToId then replyToId else none : Option String) with
    | none => simp
    | some rid =>
      rw [hr] at hfk
      simpa using hfk

/-! ## C6: reply resolution on composed feed entries -/

/-- C6: a composed feed entry whose `replyToId` is set (to a truthy id)
has `replyToMessage`/`replyToUsername` populated with the parent's text
and resolved author label whenever the parent exists in the store, and
both fields absent (the reply marker still present) when it does not. -/
theorem feed_reply_resolution (cfg : Config) (db : DB) (page limit : Nat)
    (e : FeedEntry) (he : e ∈ (getGuestbookEntries cfg db page limit).entries)
    (rid : String) (hrid : e.replyToId = some rid) (hne : rid ≠ "") :
    (∀ p, findParent db rid = some p →
      e.replyToMessage = some p.message ∧
      e.replyToUsername = parentAuthorLabel db p) ∧
    (findParent db rid = none →
      e.replyToMessage = none ∧ e.replyToUsername = none ∧
      e.replyToId = some rid) := by
  rw [entries_eq] at he
  obtain ⟨w, hw, rfl⟩ := List.mem_map.1 he
  obtain ⟨e0, _, rfl⟩ := List.mem_map.1 hw
  have hr0 : e0.replyToId = some rid := by
    rw [← resolveReply_toEntryRow db e0]
    exact hrid
  have hfields := resolveReply_reply_fields db e0 rid hr0 hne
  constructor
  · intro p hp
    exact (hfields.1 p hp)
  · intro hp
    exact ⟨(hfields.2 hp).1, (hfields.2 hp).2, hrid⟩

/-! ## C1: the posting gate and unverified sessions -/

/-- C1 counterexample: a call with a valid but UNVERIFIED session
(`emailVerified = false`) and a text passing validation does not fail
with any error; it succeeds and inserts one row into the message store
(the claimed `NotVerified` failure with zero inserts does not happen). -/
theorem createGuestbookEntry_unverified_inserts :
    createGuestbookEntry (some { userId := "u1", emailVerified := false })
        ("hello") none ("m1") 5 { guestbook := [], users := [] }
      = .ok ((), { guestbook := [{ id := "m1", message := "hello", createdAt := 5,
                                   userId := "u1", replyToId := none }],
                   users := [] }) := by
  rfl

/-- C1 amended: `createGuestbookEntry` never consults the session's
email-verification state — a call with an unverified session behaves
identically to the same call with a verified session (the verification
gate is enforced by the UI caller, not inside the server action). -/
theorem createGuestbookEntry_ignores_verification (uid : String) (v : Bool)
    (message : String) (replyToId : Option String) (newId : String) (now : Nat)
    (db : DB) :
    createGuestbookEntry (some { userId := uid, emailVerified := v })
        message replyToId newId now db
      = createGuestbookEntry (some { userId := uid, emailVerified := true })
          message replyToId newId now db :=
  rfl

/-! ## C2: how validation failures are reported -/

set_option maxRecDepth 10000 in
/-- C2 counterexample: an input violating two rules at once (too long
for a root post AND containing a link) makes the validator report both
reasons, but the error `createGuestbookEntry` raises is the single
comma-joined message string, not a list of reason codes. -/
theorem createGuestbookEntry_merges_reasons :
    (validateMessageContent
        (String.mk (List.replicate 243 'a' ++ ("http://").data))
        (postConstraints none)).errors
      = ["Message is too long", "Links are not allowed"] ∧
    createGuestbookEntry (some { userId := "u1", emailVerified := true })
        (String.mk (List.replicate 243 'a' ++ ("http://").data)) none ("m2") 5
        { guestbook := [], users := [] }
      = .error ("Message is too long, Links are not allowed") := by
  constructor <;> rfl

/-- C2 amended: on any rejected input the error raised by
`createGuestbookEntry` carries every violated reason (never just the
first), but joined into one comma-separated message string rather than
as a list of reason codes. -/
theorem createGuestbookEntry_error_joins_all_reasons (s : Session)
    (message : String) (replyToId : Option String) (newId : String) (now : Nat)
    (db : DB)
    (h : (validateMessageContent message (postConstraints replyToId)).isValid
      = false) :
    createGuestbookEntry (some s) message replyToId newId now db
      = .error (String.intercalate (", ")
          (validateMessageContent message (postConstraints replyToId)).errors) :=
  createGuestbookEntry_invalid s message replyToId newId now db h

/-! ## C3: the value returned by a successful post -/

/-- C3 counterexample: a successful call returns the unit value, not a
`MessageView` of the created message — the action's payload type carries
no view of the inserted row. -/
theorem createGuestbookEntry_returns_unit :
    createGuestbookEntry (some { userId := "u2", emailVerified := true })
        ("hi there") none ("m3") 7 { guestbook := [], users := [] }
      = .ok ((), { guestbook := [{ id := "m3", message := "hi there", createdAt := 7,
                                   userId := "u2", replyToId := none }],
                   users := [] }) := by
  rfl

/-- C3 amended: a successful `createGuestbookEntry` returns no value
(unit); its whole observable effect is appending exactly the one new
message (with the sanitized text) to the store — the view of a message
is only obtainable through a subsequent feed read. -/
theorem createGuestbookEntry_success_effect (s : Session) (message : String)
    (replyToId : Option String) (newId : String) (now : Nat) (db db2 : DB)
    (h : createGuestbookEntry (some s) message replyToId newId now db
      = .ok ((), db2)) :
    db2.guestbook = db.guestbook ++
        [{ id := newId
           message := (validateMessageContent message (postConstraints replyToId)).sanitizedContent.getD ""
           createdAt := now
           userId := s.userId
           replyToId := if optStrTruthy replyToId then replyToId else none }] ∧
    db2.users = db.users := by
  obtain ⟨hdb2, -⟩ :=
    createGuestbookEntry_ok_cases s message replyToId newId now db db2 h
  rw [hdb2]
  exact ⟨rfl, rfl⟩

/-! ## C7: root versus reply length limits -/

/-- C7: root posts are validated against the limit 200 and replies
against the strictly larger limit 1000: any text whose trimmed length is
250 (and passing the content checks) fails as a root post with exactly
the length-violation reason, while the same text posted as a reply to an
existing message succeeds. -/
theorem root_reply_length_limits (t : String) (s : Session) (rid newId : String)
    (now : Nat) (db : DB)
    (hlen : (strTrim t).data.length = 250)
    (hlink : containsLink (strTrim t) = false)
    (hprof : containsProfanity (strTrim t) = false)
    (hne : rid ≠ "")
    (hparent : db.guestbook.any (fun p => p.id == rid) = true) :
    messageMaxLength none = 200 ∧
    messageMaxLength (some rid) = 1000 ∧
    createGuestbookEntry (some s) t none newId now db
      = .error ("Message is too long") ∧
    ∃ db2, createGuestbookEntry (some s) t (some rid) newId now db
      = .ok ((), db2) := by
  have htr : optStrTruthy (some rid) = true := by
    simp [optStrTruthy, hne]
  have h1000 : messageMaxLength (some rid) = 1000 := by
    simp [messageMaxLength, htr]
  have hroot : validateMessageContent t (postConstraints none)
      = { isValid := false, errors := ["Message is too long"],
          sanitizedContent := none } := by
    simp [validateMessageContent, postConstraints, messageMaxLength, optStrTruthy,
      hlen, hlink, hprof]
  have hrep : validateMessageContent t (postConstraints (some rid))
      = { isValid := true, errors := [], sanitizedContent := some (strTrim t) } := by
    simp [validateMessageContent, postConstraints, h1000, hlen, hlink, hprof]
  refine ⟨rfl, h1000, ?_, ?_⟩
  · rw [createGuestbookEntry_invalid s t none newId now db (by rw [hroot]), hroot]
    rfl
  · refine ⟨_, createGuestbookEntry_valid s t (some rid) newId now db
      (by rw [hrep]) ?_⟩
    rw [if_pos htr]
    exact hparent

/-! ## Concrete witnesses -/

/-- Witness for C2 (amended): the empty text is rejected and the raised
error is the comma-joined reason string. -/
theorem createGuestbookEntry_error_joins_all_reasons_witness :
    (validateMessageContent ("") (postConstraints none)).isValid = false ∧
    createGuestbookEntry (some { userId := "u9", emailVerified := true }) ("")
        none ("m9") 1 { guestbook := [], users := [] }
      = .error (String.intercalate (", ")
          (validateMessageContent ("") (postConstraints none)).errors) :=
  ⟨by decide,
   createGuestbookEntry_error_joins_all_reasons { userId := "u9", emailVerified := true }
     ("") none ("m9") 1 { guestbook := [], users := [] } (by decide)⟩

/-- Witness for C3 (amended): a successful post of `hey` appends exactly
that one message and leaves the user table unchanged. -/
theorem createGuestbookEntry_success_effect_witness :
    createGuestbookEntry (some { userId := "u3", emailVerified := true }) ("hey")
        none ("m5") 9 dbC3a = .ok ((), dbC3b) ∧
    dbC3b.guestbook = dbC3a.guestbook ++
      [{ id := "m5", message := "hey", createdAt := 9, userId := "u3",
         replyToId := none }] ∧
    dbC3b.users = dbC3a.users := by
  have h := createGuestbookEntry_success_effect
    { userId := "u3", emailVerified := true } ("hey") none ("m5") 9 dbC3a dbC3b
    (by rfl)
  exact ⟨by rfl, h.1, h.2⟩

/-- Witness for C4: posting a reply to the existing message `p1` keeps
the referential invariant true. -/
theorem createGuestbookEntry_preserves_refInv_witness :
    refInvB dbC4 = true ∧ refInvB dbC4after = true :=
  ⟨by decide,
   createGuestbookEntry_preserves_refInv
     (some { userId := "u1", emailVerified := true }) ("reply") (some "p1")
     ("r1") 2 dbC4 dbC4after (by decide) (by rfl)⟩

/-- Witness for C5: page 2 of size 1 over a two-message store has at
most one entry. -/
theorem getGuestbookEntries_pagination_witness :
    (1 : Nat) ≤ 2 ∧ (0 : Nat) < 1 ∧
    (getGuestbookEntries { CREATOR_USERNAME := none } dbC5 2 1).entries.length ≤ 1 :=
  ⟨by decide, by decide,
   (getGuestbookEntries_pagination { CREATOR_USERNAME := none } dbC5 2 1
     (by decide) (by decide)).1⟩

/-- Witness for C6: the composed reply entry of `dbC6` carries its
parent's text and resolved author label. -/
theorem feed_reply_resolution_witness :
    eC6 ∈ (getGuestbookEntries { CREATOR_USERNAME := none } dbC6 1 50).entries ∧
    (eC6.replyToMessage = some "hello" ∧ eC6.replyToUsername = some "alice") := by
  refine ⟨by decide, ?_⟩
  have h := (feed_reply_resolution { CREATOR_USERNAME := none } dbC6 1 50 eC6
    (by decide) "p1" (by rfl) (by decide)).1
    { id := "p1", message := "hello", createdAt := 1, userId := "u1",
      replyToId := none } (by rfl)
  exact ⟨h.1, h.2.trans (by decide)⟩

set_option maxRecDepth 10000 in
/-- Witness for C7: 250 a's fail as a root post with the length reason
and succeed as a reply to the existing message `p1`. -/
theorem root_reply_length_limits_witness :
    (strTrim tC7).data.length = 250 ∧
    createGuestbookEntry (some { userId := "u1", emailVerified := true }) tC7
        none ("mX") 3 dbC7 = .error ("Message is too long") ∧
    ∃ db2, createGuestbookEntry (some { userId := "u1", emailVerified := true })
        tC7 (some "p1") ("mX") 3 dbC7 = .ok ((), db2) := by
  have h := root_reply_length_limits tC7 { userId := "u1", emailVerified := true }
    "p1" ("mX") 3 dbC7 (by decide) (by decide) (by decide) (by decide) (by decide)
  exact ⟨by decide, h.2.2.1, h.2.2.2⟩

/-- Witness for C8: with creator label `ALICE`, the entry authored under
the handle `Alice` has the flag true by case-insensitive comparison. -/
theorem creator_flag_iff_witness :
    eC8 ∈ (getGuestbookEntries { CREATOR_USERNAME := some "ALICE" } dbC8 1 50).entries ∧
    (eC8.isCreator = true ↔
      (entryAuthorLabel eC8.toEntryRow).map strToLower = some (strToLower ("ALICE"))) :=
  ⟨by decide,
   (creator_flag_iff { CREATOR_USERNAME := some "ALICE" } dbC8 1 50 "ALICE" rfl
     (by decide) eC8 (by decide)).1⟩

/-- Witness for C9: toggling a present label removes it, toggling an
absent one appends it, and the store then holds exactly the new list. -/
theorem ignore_toggle_spec_witness :
    ("alice" ∈ ["alice", "bob"] ∧
      toggleIgnored ["alice", "bob"] "alice" = ["bob"]) ∧
    ("carol" ∉ ["alice", "bob"] ∧
      toggleIgnored ["alice", "bob"] "carol" = ["alice", "bob", "carol"]) ∧
    getUserPreferences (updateIgnoredUsers pC9 "v1" ["x"]) "v1" = ["x"] := by
  refine ⟨⟨by decide, ?_⟩, ⟨by decide, ?_⟩, ?_⟩
  · exact ((ignore_toggle_spec ["alice", "bob"] "alice" pC9 "v1" ["x"]).1
      (by decide)).trans (by decide)
  · exact ((ignore_toggle_spec ["alice", "bob"] "carol" pC9 "v1" ["x"]).2.1
      (by decide)).trans (by decide)
  · exact (ignore_toggle_spec ["alice", "bob"] "alice" pC9 "v1" ["x"]).2.2.1

/-- Witness for C10: with no creator configured, the composed entry of
`dbC8` has the flag false even though an author label exists. -/
theorem no_creator_no_flag_witness :
    ((({ CREATOR_USERNAME := none } : Config)).CREATOR_USERNAME = none ∨
      (({ CREATOR_USERNAME := none } : Config)).CREATOR_USERNAME = some "") ∧
    eC10.isCreator = false :=
  ⟨Or.inl rfl,
   no_creator_no_flag { CREATOR_USERNAME := none } dbC8 1 50 (Or.inl rfl) eC10
     (by decide)⟩

end Guestbook
